import Mathlib

/-!
Verification of the NVMe management utility
(`src/examples/nvme/nvme_manage/nvme_manage.c`).

The C program is shallowly embedded here: each operation becomes a pure
Lean function from an environment record (operator inputs and driver
responses) to an effect trace, and the per-controller state
(`struct dev`) becomes an explicit structure that operations thread
through.  The menu/CLI text and display-only printing are not modelled;
the effects that matter for the properties (admin-command submissions,
operator prompts, error reports, process exits) are.

The driver library (SPDK + libc) is an external collaborator.  The poll
loop `while (dev->outstanding_admin_cmds) process_admin_completions()`
is modelled under the driver contract that a successfully submitted
admin command's completion callback is invoked exactly once, so the
loop body is replaced by that single callback invocation.
-/

/-- `MAX_DEVS` from the source: the fixed size of the `devs` array. -/
def MAX_DEVS : Nat := 64

/-- NVMe success status code (`SPDK_NVME_SC_SUCCESS`). -/
def SPDK_NVME_SC_SUCCESS : Nat := 0

/-- `SPDK_NVME_GLOBAL_NS_TAG` (0xFFFFFFFF), the "all namespaces" tag. -/
def SPDK_NVME_GLOBAL_NS_TAG : Int := 4294967295

/-- A PCI bus address: domain/bus/device/function (`struct spdk_pci_addr`). -/
structure PciAddr where
  domain : Nat
  bus : Nat
  dev : Nat
  func : Nat
deriving DecidableEq, Repr

/-- Modelled from the spec: `spdk_pci_addr_compare` is SPDK library code not
included under `src/`; the spec says bus addresses are ordered ascending by
domain, then bus, then device, then function, each compared as unsigned
integers.  Returns a negative/zero/positive value like the C comparator. -/
def spdk_pci_addr_compare (a b : PciAddr) : Int :=
  if a.domain < b.domain then -1 else if b.domain < a.domain then 1
  else if a.bus < b.bus then -1 else if b.bus < a.bus then 1
  else if a.dev < b.dev then -1 else if b.dev < a.dev then 1
  else if a.func < b.func then -1 else if b.func < a.func then 1
  else 0

/-- The fields of `struct spdk_nvme_ctrlr_data` that the program consults:
controller id, number of namespaces, the OACS capability bits and the FNA
(format NVM attributes) bits. -/
structure CtrlrData where
  cntlid : Nat
  nn : Nat
  oacs_ns_manage : Bool
  oacs_format : Bool
  oacs_firmware : Bool
  fna_format_all_ns : Bool
  fna_crypto_erase_supported : Bool
deriving DecidableEq, Repr

/-- The fields of `struct spdk_nvme_ns_data` that drive control flow:
`nlbaf` (number of LBA formats minus one) and the `ms` (metadata size)
field of each entry of the `lbaf` array. -/
structure NsData where
  nlbaf : Nat
  lbaf_ms : List Nat
deriving DecidableEq, Repr

/-- `nsdata->lbaf[i].ms` (0 when out of range, matching a zeroed entry). -/
def NsData.msAt (d : NsData) (i : Nat) : Nat := d.lbaf_ms.getD i 0

/-- A zero-initialized `spdk_nvme_ns_data` buffer, as `spdk_zmalloc` returns. -/
def blankNsData : NsData := { nlbaf := 0, lbaf_ms := [] }

/-- `struct dev`: one registered controller.  The opaque `ctrlr` pointer is
not represented; `cdata` is the cached identify data, `common_ns_data` the
optional common-namespace identify buffer (`none` = NULL), and
`outstanding_admin_cmds` the in-flight admin-command counter (a C `int`,
hence `Int`). -/
structure Dev where
  pci_addr : PciAddr
  cdata : CtrlrData
  common_ns_data : Option NsData
  outstanding_admin_cmds : Int
deriving DecidableEq, Repr

/-- The observable effects of one operation: admin-command submissions to
the driver, operator prompts, error/status reports, and process exits. -/
inductive Effect where
  | identifyCommonNs
  | identifyAllocatedNs
  | createNsCmd
  | deleteNsCmd (nsid : Int)
  | attachNsCmd (nsid : Nat) (ctrlrId : Nat)
  | detachNsCmd (nsid : Nat) (ctrlrId : Nat)
  | formatCmd (nsid ses pi pil ms lbaf : Int)
  | fwUpdateCmd (slot : Int)
  | promptNsid
  | promptSES
  | promptLbaf
  | promptPI
  | promptPIL
  | promptMS
  | promptSize
  | promptCapacity
  | promptDpsType
  | promptDpsLoc
  | promptNmic
  | promptPath
  | promptSlot
  | promptConfirm
  | report (msg : String)
  | exitProcess (code : Nat)
deriving DecidableEq, Repr

/-- Effects that submit an admin command to the device (directly via
`spdk_nvme_ctrlr_cmd_admin_raw` or through a driver helper that issues
one or more admin commands). -/
def Effect.isAdminCmd : Effect → Bool
  | .identifyCommonNs => true
  | .identifyAllocatedNs => true
  | .createNsCmd => true
  | .deleteNsCmd _ => true
  | .attachNsCmd _ _ => true
  | .detachNsCmd _ _ => true
  | .formatCmd _ _ _ _ _ _ => true
  | .fwUpdateCmd _ => true
  | _ => false

/-- Whether an effect trace contains no admin-command submission at all. -/
def adminFree (t : List Effect) : Bool := t.all fun e => !e.isAdminCmd

/-- Whether an effect is a process exit. -/
def Effect.isExit : Effect → Bool
  | .exitProcess _ => true
  | _ => false

/-- Whether an effect trace contains a process exit. -/
def hasExit (t : List Effect) : Bool := t.any Effect.isExit

/-- `identify_common_ns_cb`: the completion callback of the common-namespace
identify issued during attach.  On a non-success status it frees the buffer
and NULLs the pointer; in every case it decrements the in-flight counter. -/
def identify_common_ns_cb (dev : Dev) (cpl_sc : Nat) : Dev :=
  let dev :=
    if cpl_sc ≠ SPDK_NVME_SC_SUCCESS then
      { dev with common_ns_data := none }
    else dev
  { dev with outstanding_admin_cmds := dev.outstanding_admin_cmds - 1 }

/-- `identify_allocated_ns_cb`: the completion callback of the
allocated-namespace-list identify; it only decrements the counter. -/
def identify_allocated_ns_cb (dev : Dev) (cpl_sc : Nat) : Dev :=
  { dev with outstanding_admin_cmds := dev.outstanding_admin_cmds - 1 }

/-- C7: every admin-command completion callback decrements the owning
controller's in-flight counter by exactly one, for every completion status;
and the common-namespace callback leaves the cached buffer untouched on
success and releases it (marks it absent) on any non-success status, never
skipping the decrement. -/
theorem C7_callbacks_always_decrement (dev : Dev) (sc : Nat) :
    (identify_common_ns_cb dev sc).outstanding_admin_cmds
        = dev.outstanding_admin_cmds - 1
    ∧ (identify_allocated_ns_cb dev sc).outstanding_admin_cmds
        = dev.outstanding_admin_cmds - 1
    ∧ (identify_common_ns_cb dev sc).common_ns_data
        = (if sc = SPDK_NVME_SC_SUCCESS then dev.common_ns_data else none) := by
  unfold identify_common_ns_cb identify_allocated_ns_cb
  by_cases h : sc = SPDK_NVME_SC_SUCCESS <;> simp [h]

/-! ## Discovery / attach (`attach_cb`) and the synchronous executor -/

/-- Environment of one `attach_cb` invocation: the probed device's address
and identify data, plus the driver's responses (allocation success,
submission success, and the completion status the poll loop delivers). -/
structure AttachCbEnv where
  pci_addr : PciAddr
  cdata : CtrlrData
  allocOk : Bool
  submitOk : Bool
  cpl_sc : Nat
deriving DecidableEq, Repr

/-- `attach_cb`: builds the new `struct dev` (registration into the global
array is modelled separately by `register_dev`/`attach_cb_slot`), caches the
identify data, and opportunistically issues the common-namespace identify
through the synchronous executor pattern: increment the in-flight counter,
submit, and poll completions until the counter returns to zero.  On
submission failure the counter is decremented to compensate and the buffer
is freed, so the poll loop body never runs. -/
def attach_cb (env : AttachCbEnv) : Dev × List Effect :=
  let dev : Dev :=
    { pci_addr := env.pci_addr, cdata := env.cdata,
      common_ns_data := none, outstanding_admin_cmds := 0 }
  if !env.allocOk then
    (dev, [.report "common_ns_data allocation failure"])
  else
    let dev := { dev with common_ns_data := some blankNsData }
    let dev := { dev with outstanding_admin_cmds := dev.outstanding_admin_cmds + 1 }
    if !env.submitOk then
      -- spdk_nvme_ctrlr_cmd_admin_raw != 0: decrement and free the buffer;
      -- the counter is back at zero, so the poll loop is not entered.
      ({ dev with outstanding_admin_cmds := dev.outstanding_admin_cmds - 1,
                  common_ns_data := none }, [])
    else
      -- poll loop: the completion callback is invoked exactly once,
      -- returning the counter to zero, and the loop exits.
      (identify_common_ns_cb dev env.cpl_sc, [.identifyCommonNs])

/-- The array slot `attach_cb` writes: `dev = &devs[num_devs++]` picks index
`num_devs` unconditionally — the source has no branch comparing `num_devs`
with `MAX_DEVS`. -/
def attach_cb_slot (num_devs : Nat) : Nat := num_devs

/-- Registration as a list append (the effect of `devs[num_devs++] = ...`
whenever the slot is in bounds). -/
def register_dev (devs : List Dev) (d : Dev) : List Dev := devs ++ [d]

/-- The registry contents after `spdk_nvme_probe` has attached every
discovered device, in discovery order. -/
def registryAfterProbe (ds : List Dev) : List Dev := ds.foldl register_dev []

/-- `cmp_devs`: the comparator handed to `qsort` in `main`. -/
def cmp_devs (a b : Dev) : Int := spdk_pci_addr_compare a.pci_addr b.pci_addr

/-- One insertion step of the sort modelling `qsort` (a comparison sort by
`cmp_devs`; on the distinct keys of a registry any comparison sort agrees). -/
def sortInsertDev (d : Dev) : List Dev → List Dev
  | [] => [d]
  | e :: t => if cmp_devs d e ≤ 0 then d :: e :: t else e :: sortInsertDev d t

/-- The sort modelling `qsort(devs, num_devs, sizeof(devs[0]), cmp_devs)`. -/
def sort_devs : List Dev → List Dev
  | [] => []
  | d :: t => sortInsertDev d (sort_devs t)

/-- The registry contents after `main` runs discovery and then sorts the
`devs` array in place with `qsort`. -/
def mainRegistry (ds : List Dev) : List Dev := sort_devs (registryAfterProbe ds)

/-! ## `get_allocated_nsid` -/

/-- Environment of one `get_allocated_nsid` call: allocation and submission
outcomes, the completion status, and the operator's namespace-id input
(`none` = `scanf` failed). -/
structure GetAllocEnv where
  allocOk : Bool
  submitOk : Bool
  cpl_sc : Nat
  nsid_in : Option Nat
deriving Repr

/-- `get_allocated_nsid`: issues the allocated-namespace-list identify
through the synchronous executor pattern, then prompts for a namespace id.
Returns the chosen nsid (0 on any failure), the updated device state and
the effect trace.  Note: on submission failure the source returns without
decrementing `outstanding_admin_cmds` (compare `attach_cb`). -/
def get_allocated_nsid (env : GetAllocEnv) (dev : Dev) : Nat × Dev × List Effect :=
  if !env.allocOk then
    (0, dev, [.report "Allocation error"])
  else
    let dev1 := { dev with outstanding_admin_cmds := dev.outstanding_admin_cmds + 1 }
    if !env.submitOk then
      -- the source frees ns_list and returns 0 here, with no decrement
      (0, dev1, [.report "Identify command failed"])
    else
      -- poll loop: the completion callback is invoked exactly once
      let dev2 := identify_allocated_ns_cb dev1 env.cpl_sc
      match env.nsid_in with
      | none => (0, dev2, [.identifyAllocatedNs, .promptNsid,
                           .report "Invalid Namespace ID"])
      | some nsid => (nsid, dev2, [.identifyAllocatedNs, .promptNsid])

/-! ## Shared concrete values -/

/-- A controller-data value with every relevant capability supported. -/
def cdataFull : CtrlrData :=
  { cntlid := 1, nn := 8, oacs_ns_manage := true, oacs_format := true,
    oacs_firmware := true, fna_format_all_ns := false,
    fna_crypto_erase_supported := true }

/-- A quiescent device at PCI address 0000:00:00.0. -/
def devZero : Dev :=
  { pci_addr := { domain := 0, bus := 0, dev := 0, func := 0 },
    cdata := cdataFull, common_ns_data := some blankNsData,
    outstanding_admin_cmds := 0 }

/-- A device at PCI address 0000:00:00.1 (greater bus address). -/
def devA : Dev := { devZero with pci_addr := { domain := 0, bus := 0, dev := 0, func := 1 } }

/-- A device at PCI address 0000:00:00.0 (lesser bus address). -/
def devB : Dev := devZero

/-- C1 (code bug): on the driver-submission-failure path, `attach_cb`
decrements the in-flight counter back to its pre-call value 0 as the claim
states, but `get_allocated_nsid` — the other use of the synchronous
executor pattern — returns with the counter still at 1: the compensating
decrement is missing, so the counter does not return to its pre-call
value there. -/
theorem C1_submission_failure_counter_leak :
    (attach_cb { pci_addr := devZero.pci_addr, cdata := cdataFull,
                 allocOk := true, submitOk := false,
                 cpl_sc := 0 }).1.outstanding_admin_cmds = 0
    ∧ devZero.outstanding_admin_cmds = 0
    ∧ (get_allocated_nsid { allocOk := true, submitOk := false, cpl_sc := 0,
                            nsid_in := some 1 }
         devZero).2.1.outstanding_admin_cmds = 1
    ∧ (1 : Int) ≠ 0 := by
  refine ⟨rfl, rfl, rfl, by decide⟩

/-- C2 (code bug): with the registry full (`num_devs = 64`), the
registration step of `attach_cb` writes slot 64 of the 64-entry `devs`
array — out of bounds — rather than failing with a capacity error: the
source has no capacity check, and a 65-device discovery leaves the
registry model holding 65 entries, past `MAX_DEVS`. -/
theorem C2_registration_overflow_at_65 :
    attach_cb_slot 64 = 64
    ∧ ¬ (attach_cb_slot 64 < MAX_DEVS)
    ∧ (registryAfterProbe (List.replicate 65 devZero)).length = 65
    ∧ MAX_DEVS = 64 := by
  refine ⟨rfl, by decide, ?_, rfl⟩
  decide

/-! ## Registry order and the in-place sort in `main` -/

/-- The bus-address comparator is total: for any two devices one compares
less-or-equal to the other. -/
theorem cmp_devs_total (a b : Dev) : cmp_devs a b ≤ 0 ∨ cmp_devs b a ≤ 0 := by
  unfold cmp_devs spdk_pci_addr_compare
  split_ifs <;> omega

/-- The head of an insertion step is the inserted element or the old head. -/
theorem sortInsertDev_head (d : Dev) (t : List Dev) :
    (sortInsertDev d t).head? = some d ∨ (sortInsertDev d t).head? = t.head? := by
  cases t with
  | nil => left; rfl
  | cons e t' =>
    unfold sortInsertDev
    split
    · left; rfl
    · right; rfl

/-- Inserting into a list sorted by `cmp_devs` keeps it sorted. -/
theorem chain_sortInsertDev (d : Dev) (l : List Dev)
    (h : l.Chain' (fun a b => cmp_devs a b ≤ 0)) :
    (sortInsertDev d l).Chain' (fun a b => cmp_devs a b ≤ 0) := by
  induction l with
  | nil => simp [sortInsertDev]
  | cons e t ih =>
    unfold sortInsertDev
    by_cases hc : cmp_devs d e ≤ 0
    · simp only [if_pos hc]
      exact List.chain'_cons.mpr ⟨hc, h⟩
    · simp only [if_neg hc]
      rw [List.chain'_cons']
      refine ⟨?_, ih (List.chain'_cons'.mp h).2⟩
      intro x hx
      rcases sortInsertDev_head d t with hh | hh
      · rw [hh] at hx
        simp only [Option.mem_def, Option.some.injEq] at hx
        subst hx
        rcases cmp_devs_total d e with h1 | h1
        · exact absurd h1 hc
        · exact h1
      · rw [hh] at hx
        exact (List.chain'_cons'.mp h).1 x hx

/-- An insertion step permutes the element onto the list. -/
theorem sortInsertDev_perm (d : Dev) (l : List Dev) :
    (sortInsertDev d l).Perm (d :: l) := by
  induction l with
  | nil => exact List.Perm.refl _
  | cons e t ih =>
    unfold sortInsertDev
    by_cases hc : cmp_devs d e ≤ 0
    · simp [hc]
    · simp only [if_neg hc]
      exact (ih.cons e).trans (List.Perm.swap d e t)

/-- The sort permutes its input. -/
theorem sort_devs_perm (l : List Dev) : (sort_devs l).Perm l := by
  induction l with
  | nil => exact List.Perm.refl _
  | cons d t ih => exact (sortInsertDev_perm d (sort_devs t)).trans (ih.cons d)

/-- The sort output is ordered by the bus-address comparator. -/
theorem chain_sort_devs (l : List Dev) :
    (sort_devs l).Chain' (fun a b => cmp_devs a b ≤ 0) := by
  induction l with
  | nil => simp [sort_devs]
  | cons d t ih => exact chain_sortInsertDev d _ ih

/-- Folding registrations appends in discovery order. -/
theorem foldl_register_dev (ds acc : List Dev) :
    ds.foldl register_dev acc = acc ++ ds := by
  induction ds generalizing acc with
  | nil => simp
  | cons d t ih => simp [register_dev, ih]

/-- Registration preserves discovery order. -/
theorem registryAfterProbe_eq (ds : List Dev) : registryAfterProbe ds = ds := by
  simp [registryAfterProbe, foldl_register_dev]

/-- C3 counterexample: with two devices discovered in descending
bus-address order, the registry after `main`'s `qsort` holds them in
ascending order — the sort mutated the registry away from registration
(discovery) order, so it is not a pure display ordering. -/
theorem C3_qsort_mutates_registry :
    mainRegistry [devA, devB] = [devB, devA]
    ∧ registryAfterProbe [devA, devB] = [devA, devB]
    ∧ mainRegistry [devA, devB] ≠ registryAfterProbe [devA, devB] := by
  refine ⟨by decide, by decide, by decide⟩

/-- C3 amended: registration itself appends in discovery order, but `main`
sorts the registry array in place by bus address (ascending by domain, bus,
device, function) once after discovery; thereafter the registry holds the
bus-address-sorted permutation of the discovered devices, not discovery
order. -/
theorem C3_amended_registry_sorted_in_place (ds : List Dev)
    (h : ds.length ≤ MAX_DEVS) :
    registryAfterProbe ds = ds
    ∧ mainRegistry ds = sort_devs ds
    ∧ (mainRegistry ds).Chain' (fun a b => cmp_devs a b ≤ 0)
    ∧ (mainRegistry ds).Perm ds := by
  refine ⟨registryAfterProbe_eq ds, ?_, ?_, ?_⟩
  · simp [mainRegistry, registryAfterProbe_eq]
  · exact chain_sort_devs _
  · exact (sort_devs_perm _).trans (by rw [registryAfterProbe_eq])

/-- Witness for the amended C3 theorem at the two-device discovery. -/
theorem C3_amended_registry_sorted_in_place_witness :
    registryAfterProbe [devA, devB] = [devA, devB]
    ∧ mainRegistry [devA, devB] = sort_devs [devA, devB]
    ∧ (mainRegistry [devA, devB]).Chain' (fun a b => cmp_devs a b ≤ 0)
    ∧ (mainRegistry [devA, devB]).Perm [devA, devB] :=
  C3_amended_registry_sorted_in_place [devA, devB] (by decide)

/-! ## Namespace operation layer -/

/-- `SPDK_NVME_FMT_NVM_PROTECTION_DISABLE` (protection type 0). -/
def SPDK_NVME_FMT_NVM_PROTECTION_DISABLE : Int := 0

/-- `get_lba_format`: validates the operator's LBA-format index against the
namespace data; `none` input models a failed `scanf`.  The source returns
-1 when the read fails or the index exceeds `nlbaf`, and returns the read
value (possibly negative) otherwise; callers reject negative results. -/
def get_lba_format (ns_data : NsData) (input : Option Int) : Int :=
  match input with
  | none => -1
  | some lbaf => if lbaf > (ns_data.nlbaf : Int) then -1 else lbaf

/-- The attachment operation selector (`SPDK_NVME_NS_CTRLR_ATTACH` /
`SPDK_NVME_NS_CTRLR_DETACH`). -/
inductive AttachmentOp where
  | attach
  | detach
deriving DecidableEq, Repr

/-- `ns_attach`: allocates the one-entry controller list — exiting the
process on allocation failure — then issues the attach or detach command
and reports a non-zero driver status. -/
def ns_attach (attachment_op : AttachmentOp) (ctrlr_id ns_id : Nat)
    (allocOk : Bool) (driverRc : Int) : List Effect :=
  if !allocOk then
    [.report "Allocation error (controller list)", .exitProcess 1]
  else
    (match attachment_op with
     | .attach => Effect.attachNsCmd ns_id ctrlr_id
     | .detach => Effect.detachNsCmd ns_id ctrlr_id)
    :: (if driverRc ≠ 0 then [.report "ns attach: Failed"] else [])

/-- Environment of `attach_and_detach_ns`: the controller the operator
selected (`none` = not found / parse failure), the `get_allocated_nsid`
sub-environment, and the driver responses of `ns_attach`. -/
structure AttachDetachEnv where
  ctrlr : Option Dev
  ga : GetAllocEnv
  allocCtrlrListOk : Bool
  driverRc : Int
deriving Repr

/-- `attach_and_detach_ns`: looks up the controller, gates on the
namespace-management capability, obtains a namespace id via
`get_allocated_nsid`, and issues the attach/detach command. -/
def attach_and_detach_ns (attachment_op : AttachmentOp)
    (env : AttachDetachEnv) : List Effect :=
  match env.ctrlr with
  | none => [.report "Invalid controller PCI Address."]
  | some ctrlr =>
    if !ctrlr.cdata.oacs_ns_manage then
      [.report "Controller does not support ns management"]
    else
      let r := get_allocated_nsid env.ga ctrlr
      if r.1 = 0 then r.2.2 ++ [.report "Invalid Namespace ID"]
      else r.2.2 ++ ns_attach attachment_op ctrlr.cdata.cntlid r.1
                      env.allocCtrlrListOk env.driverRc

/-- `ns_manage_add`: allocates the namespace-descriptor buffer — exiting
the process on allocation failure — builds the descriptor and issues the
namespace-management create command; a returned id of zero is failure. -/
def ns_manage_add (allocOk : Bool) (created_nsid : Nat) : List Effect :=
  if !allocOk then
    [.report "Allocation error (namespace data)", .exitProcess 1]
  else
    Effect.createNsCmd
    :: (if created_nsid = 0 then [.report "ns manage: Failed"]
        else [.report "Created namespace ID"])

/-- The tail of `add_ns` after the data-protection prompts: the sharing
prompt and then `ns_manage_add`; `locEffs` carries the optional
data-protection-location prompt. -/
def add_ns_finish (nmic_in : Option Int) (locEffs : List Effect)
    (allocOk : Bool) (created_nsid : Nat) : List Effect :=
  match nmic_in with
  | none => [.promptLbaf, .promptSize, .promptCapacity, .promptDpsType]
            ++ locEffs
            ++ [.promptNmic,
                .report "Invalid Multi-path IO and Sharing Capabilities"]
  | some _ => [.promptLbaf, .promptSize, .promptCapacity, .promptDpsType]
              ++ locEffs ++ [.promptNmic]
              ++ ns_manage_add allocOk created_nsid

/-- Environment of `add_ns`: the selected controller, the operator inputs
(`none` = failed `scanf`), and the driver responses of `ns_manage_add`. -/
structure AddNsEnv where
  ctrlr : Option Dev
  lbaf_in : Option Int
  size_in : Option Int
  capacity_in : Option Int
  dps_type_in : Option Int
  dps_loc_in : Option Int
  nmic_in : Option Int
  allocNdataOk : Bool
  created_nsid : Nat
deriving Repr

/-- `add_ns`: looks up the controller, gates on namespace management,
requires the cached common-namespace data (refusing when absent), prompts
for the LBA format, size, capacity, data-protection type (and location
when protection is enabled) and sharing mode, then calls `ns_manage_add`. -/
def add_ns (env : AddNsEnv) : List Effect :=
  match env.ctrlr with
  | none => [.report "Invalid controller PCI Address."]
  | some ctrlr =>
    if !ctrlr.cdata.oacs_ns_manage then
      [.report "Controller does not support ns management"]
    else
      match ctrlr.common_ns_data with
      | none => [.report "Controller did not return common namespace capabilities"]
      | some cnd =>
        if get_lba_format cnd env.lbaf_in < 0 then
          [.promptLbaf, .report "Invalid LBA format number"]
        else
          match env.size_in with
          | none => [.promptLbaf, .promptSize, .report "Invalid Namespace Size"]
          | some _ =>
            match env.capacity_in with
            | none => [.promptLbaf, .promptSize, .promptCapacity,
                       .report "Invalid Namespace Capacity"]
            | some _ =>
              match env.dps_type_in with
              | none => [.promptLbaf, .promptSize, .promptCapacity,
                         .promptDpsType, .report "Invalid Data Protection Type"]
              | some dps_type =>
                if dps_type ≠ SPDK_NVME_FMT_NVM_PROTECTION_DISABLE then
                  match env.dps_loc_in with
                  | none => [.promptLbaf, .promptSize, .promptCapacity,
                             .promptDpsType, .promptDpsLoc,
                             .report "Invalid Data Protection Location"]
                  | some _ =>
                    add_ns_finish env.nmic_in [.promptDpsLoc]
                      env.allocNdataOk env.created_nsid
                else
                  add_ns_finish env.nmic_in []
                    env.allocNdataOk env.created_nsid

/-- `ns_manage_delete`: issues the namespace-management delete command and
reports a non-zero driver status. -/
def ns_manage_delete (ns_id : Int) (driverRc : Int) : List Effect :=
  Effect.deleteNsCmd ns_id
  :: (if driverRc ≠ 0 then [.report "ns manage: Failed"] else [])

/-- Environment of `delete_ns`. -/
structure DeleteNsEnv where
  ctrlr : Option Dev
  nsid_in : Option Int
  driverRc : Int
deriving Repr

/-- `delete_ns`: looks up the controller, gates on namespace management,
prompts for the namespace id and calls `ns_manage_delete`. -/
def delete_ns (env : DeleteNsEnv) : List Effect :=
  match env.ctrlr with
  | none => [.report "Invalid controller PCI Address."]
  | some ctrlr =>
    if !ctrlr.cdata.oacs_ns_manage then
      [.report "Controller does not support ns management"]
    else
      match env.nsid_in with
      | none => [.promptNsid, .report "Invalid Namespace ID"]
      | some ns_id => Effect.promptNsid :: ns_manage_delete ns_id env.driverRc

/-- `nvme_manage_format`: issues the format command and reports a non-zero
driver status. -/
def nvme_manage_format (ns_id ses pi pil ms lbaf : Int)
    (driverRc : Int) : List Effect :=
  Effect.formatCmd ns_id ses pi pil ms lbaf
  :: (if driverRc ≠ 0 then [.report "nvme format: Failed"] else [])

/-- Environment of `format_nvm`: the selected controller, the operator
inputs, the driver's namespace lookup (`spdk_nvme_ctrlr_get_ns` composed
with `spdk_nvme_ns_get_data`; `none` = namespace not found) and the format
command's driver status. -/
structure FormatEnv where
  ctrlr : Option Dev
  nsid_in : Option Int
  nsLookup : Int → Option NsData
  ses_in : Option Int
  lbaf_in : Option Int
  pi_in : Option Int
  pil_in : Option Int
  ms_in : Option Int
  confirm_in : Option Char
  driverRc : Int

/-- The tail of `format_nvm`: the confirmation prompt, then either the
format command or the abort message. -/
def format_confirm (env : FormatEnv) (es : List Effect)
    (ns_id ses pi pil ms lbaf : Int) : List Effect :=
  match env.confirm_in with
  | none => es ++ [.promptConfirm, .report "Invalid option"]
  | some c =>
    if c = 'y' ∨ c = 'Y' then
      es ++ [.promptConfirm]
         ++ nvme_manage_format ns_id ses pi pil ms lbaf env.driverRc
    else es ++ [.promptConfirm, .report "NVMe format abort"]

/-- The body of `format_nvm` once a namespace id is chosen and the
namespace looked up (`es` is the trace accumulated so far): prompts for
secure-erase and LBA format, prompts for protection information, its
location (only when protection is enabled), and the metadata mode only
when the chosen LBA format has a non-zero metadata size (forcing pi, pil
and ms to 0 otherwise), and hands over to `format_confirm`. -/
def format_nvm_ns (env : FormatEnv) (ns_id : Int) (onsdata : Option NsData)
    (es : List Effect) : List Effect :=
  match onsdata with
  | none => es ++ [.report "Namespace not found"]
  | some nsdata =>
    match env.ses_in with
    | none => es ++ [.promptSES, .report "Invalid Secure Erase Setting"]
    | some ses =>
      let lbaf := get_lba_format nsdata env.lbaf_in
      if lbaf < 0 then
        es ++ [.promptSES, .promptLbaf, .report "Invalid LBA format number"]
      else if nsdata.msAt lbaf.toNat ≠ 0 then
        match env.pi_in with
        | none => es ++ [.promptSES, .promptLbaf, .promptPI,
                         .report "Invalid protection information"]
        | some pi =>
          if pi ≠ 0 then
            match env.pil_in with
            | none => es ++ [.promptSES, .promptLbaf, .promptPI, .promptPIL,
                             .report "Invalid protection information location"]
            | some pil =>
              match env.ms_in with
              | none => es ++ [.promptSES, .promptLbaf, .promptPI, .promptPIL,
                               .promptMS, .report "Invalid metadata setting"]
              | some ms =>
                format_confirm env
                  (es ++ [.promptSES, .promptLbaf, .promptPI, .promptPIL,
                          .promptMS])
                  ns_id ses pi pil ms lbaf
          else
            match env.ms_in with
            | none => es ++ [.promptSES, .promptLbaf, .promptPI, .promptMS,
                             .report "Invalid metadata setting"]
            | some ms =>
              format_confirm env
                (es ++ [.promptSES, .promptLbaf, .promptPI, .promptMS])
                ns_id ses pi 0 ms lbaf
      else
        format_confirm env (es ++ [.promptSES, .promptLbaf]) ns_id ses 0 0 0 lbaf

/-- `format_nvm`: looks up the controller, gates on the format capability,
selects a namespace id (the global tag when format applies to all
namespaces, otherwise an operator-prompted id), looks the namespace up
and continues in `format_nvm_ns`. -/
def format_nvm (env : FormatEnv) : List Effect :=
  match env.ctrlr with
  | none => [.report "Invalid controller PCI BDF."]
  | some ctrlr =>
    if !ctrlr.cdata.oacs_format then
      [.report "Controller does not support Format NVM command"]
    else if ctrlr.cdata.fna_format_all_ns then
      format_nvm_ns env SPDK_NVME_GLOBAL_NS_TAG (env.nsLookup 1) []
    else
      match env.nsid_in with
      | none => [.promptNsid, .report "Invalid Namespace ID"]
      | some ns_id =>
        format_nvm_ns env ns_id (env.nsLookup ns_id) [.promptNsid]

/-- Environment of `update_firmware_image`: the selected controller, the
path input, the file-system outcomes (`open`, `fstat`, the image size,
`read`), the buffer allocation outcome, the slot input and the driver
status of the firmware-update command. -/
structure FwEnv where
  ctrlr : Option Dev
  path_in : Option String
  openOk : Bool
  fstatOk : Bool
  size : Nat
  allocOk : Bool
  readOk : Bool
  slot_in : Option Int
  driverRc : Int
deriving Repr

/-- `update_firmware_image`: looks up the controller, gates on the
firmware capability, reads the image path, opens and stats the file,
rejects an image whose size is not a multiple of 4 before anything is
submitted, reads the image, prompts for a slot and issues the
firmware-update command. -/
def update_firmware_image (env : FwEnv) : List Effect :=
  match env.ctrlr with
  | none => [.report "Invalid controller PCI BDF."]
  | some ctrlr =>
    if !ctrlr.cdata.oacs_firmware then
      [.report "Controller does not support firmware download and commit command"]
    else
      match env.path_in with
      | none => [.promptPath, .report "Invalid path setting"]
      | some _ =>
        if !env.openOk then [.promptPath, .report "Open file failed"]
        else if !env.fstatOk then [.promptPath, .report "Fstat failed"]
        else if env.size % 4 ≠ 0 then
          [.promptPath, .report "Firmware image size is not multiple of 4"]
        else if !env.allocOk then [.promptPath, .report "Allocation error"]
        else if !env.readOk then
          [.promptPath, .report "Read firmware image failed"]
        else
          match env.slot_in with
          | none => [.promptPath, .promptSlot, .report "Invalid Slot"]
          | some slot =>
            [.promptPath, .promptSlot, .fwUpdateCmd slot]
            ++ (if env.driverRc ≠ 0 then
                  [.report "spdk_nvme_ctrlr_update_firmware failed"]
                else [.report "spdk_nvme_ctrlr_update_firmware success"])

/-! ## Effect of absent common-namespace data (C4) -/

/-- A device like `devZero` whose common-namespace identify failed. -/
def devNoCommon : Dev := { devZero with common_ns_data := none }

/-- Replace a device's cached common-namespace data. -/
def Dev.withCommon (d : Dev) (c : Option NsData) : Dev :=
  { d with common_ns_data := c }

/-- C4 counterexample: on a controller whose common-namespace data is
absent, the create operation is refused outright — with every operator
input valid, `add_ns` stops at the common-namespace-capabilities check,
reports, and issues no admin command — so absence of the auxiliary data
does cause an operation to be refused. -/
theorem C4_create_refused_without_common_ns :
    add_ns { ctrlr := some devNoCommon, lbaf_in := some 0, size_in := some 100,
             capacity_in := some 100, dps_type_in := some 0,
             dps_loc_in := some 0, nmic_in := some 0, allocNdataOk := true,
             created_nsid := 5 }
      = [.report "Controller did not return common namespace capabilities"]
    ∧ adminFree [.report "Controller did not return common namespace capabilities"]
      = true := ⟨rfl, rfl⟩

/-- The namespace id and effect trace of `get_allocated_nsid` do not
depend on the device's cached common-namespace data. -/
theorem get_allocated_nsid_common_indep (g : GetAllocEnv) (d : Dev)
    (c : Option NsData) :
    (get_allocated_nsid g (d.withCommon c)).1 = (get_allocated_nsid g d).1
    ∧ (get_allocated_nsid g (d.withCommon c)).2.2
      = (get_allocated_nsid g d).2.2 := by
  rcases g with ⟨ao, so, sc, ni⟩
  cases ao <;> cases so <;> cases ni <;>
    simp [get_allocated_nsid, identify_allocated_ns_cb, Dev.withCommon]

/-- The attach/detach trace does not depend on the cached common data. -/
theorem attach_and_detach_ns_common_indep (op : AttachmentOp) (d : Dev)
    (c : Option NsData) (ga : GetAllocEnv) (al : Bool) (rc : Int) :
    attach_and_detach_ns op { ctrlr := some (d.withCommon c), ga := ga,
                              allocCtrlrListOk := al, driverRc := rc }
      = attach_and_detach_ns op { ctrlr := some d, ga := ga,
                                  allocCtrlrListOk := al, driverRc := rc } := by
  rcases ga with ⟨ao, so, sc, ni⟩
  cases ao <;> cases so <;> cases ni <;>
    simp [attach_and_detach_ns, get_allocated_nsid, identify_allocated_ns_cb,
          Dev.withCommon, ns_attach]

/-- C4 amended: absence of the common-namespace data is never fatal and
leaves delete, attach, detach, format and firmware update unchanged —
their traces are independent of the cached data — but the create
operation is the exception: it is refused (non-fatally, with a report and
no admin command) when the data is absent, because it derives its LBA
format list from it. -/
theorem C4_amended_absence_only_refuses_create
    (d : Dev) (c : Option NsData) (op : AttachmentOp)
    (ga : GetAllocEnv) (al : Bool) (rc rc2 rc3 rc4 : Int)
    (ni : Option Int) (nsid_in ses li pii pil ms : Option Int)
    (lk : Int → Option NsData) (cf : Option Char)
    (pin : Option String) (oo fs ao ro : Bool) (sz : Nat) (sl : Option Int)
    (a : PciAddr) (cid nn : Nat) (b1 b2 b3 b4 : Bool) (oc : Int)
    (li2 si ci dt dl nm : Option Int) (al2 : Bool) (cn : Nat) :
    delete_ns { ctrlr := some (d.withCommon c), nsid_in := ni, driverRc := rc2 }
      = delete_ns { ctrlr := some d, nsid_in := ni, driverRc := rc2 }
    ∧ attach_and_detach_ns op { ctrlr := some (d.withCommon c), ga := ga,
                                allocCtrlrListOk := al, driverRc := rc }
      = attach_and_detach_ns op { ctrlr := some d, ga := ga,
                                  allocCtrlrListOk := al, driverRc := rc }
    ∧ format_nvm { ctrlr := some (d.withCommon c), nsid_in := nsid_in,
                   nsLookup := lk, ses_in := ses, lbaf_in := li, pi_in := pii,
                   pil_in := pil, ms_in := ms, confirm_in := cf, driverRc := rc3 }
      = format_nvm { ctrlr := some d, nsid_in := nsid_in, nsLookup := lk,
                     ses_in := ses, lbaf_in := li, pi_in := pii, pil_in := pil,
                     ms_in := ms, confirm_in := cf, driverRc := rc3 }
    ∧ update_firmware_image { ctrlr := some (d.withCommon c), path_in := pin,
                              openOk := oo, fstatOk := fs, size := sz,
                              allocOk := ao, readOk := ro, slot_in := sl,
                              driverRc := rc4 }
      = update_firmware_image { ctrlr := some d, path_in := pin, openOk := oo,
                                fstatOk := fs, size := sz, allocOk := ao,
                                readOk := ro, slot_in := sl, driverRc := rc4 }
    ∧ add_ns { ctrlr := some { pci_addr := a,
                               cdata := { cntlid := cid, nn := nn,
                                          oacs_ns_manage := true,
                                          oacs_format := b1, oacs_firmware := b2,
                                          fna_format_all_ns := b3,
                                          fna_crypto_erase_supported := b4 },
                               common_ns_data := none,
                               outstanding_admin_cmds := oc },
               lbaf_in := li2, size_in := si, capacity_in := ci,
               dps_type_in := dt, dps_loc_in := dl, nmic_in := nm,
               allocNdataOk := al2, created_nsid := cn }
      = [.report "Controller did not return common namespace capabilities"]
    ∧ adminFree [.report "Controller did not return common namespace capabilities"]
      = true
    ∧ hasExit [.report "Controller did not return common namespace capabilities"]
      = false := by
  refine ⟨rfl, attach_and_detach_ns_common_indep op d c ga al rc, rfl, rfl,
          rfl, rfl, rfl⟩

/-! ## Process-fatal conditions (C6) -/

/-- `ns_manage_add` exits the process exactly when its allocation fails. -/
theorem hasExit_ns_manage_add (al : Bool) (cn : Nat) :
    hasExit (ns_manage_add al cn) = !al := by
  cases al <;> by_cases hcn : cn = 0 <;>
    simp [ns_manage_add, hasExit, hcn, Effect.isExit]

/-- `ns_attach` exits the process exactly when its allocation fails. -/
theorem hasExit_ns_attach (op : AttachmentOp) (cid nsid : Nat) (al : Bool)
    (rc : Int) :
    hasExit (ns_attach op cid nsid al rc) = !al := by
  cases al <;> cases op <;> by_cases hrc : rc = 0 <;>
    simp [ns_attach, hasExit, hrc, Effect.isExit]

/-- `add_ns_finish` exits the process exactly when the sharing prompt
succeeds and the namespace-data allocation then fails. -/
theorem hasExit_add_ns_finish (nm : Option Int) (l : List Effect) (al : Bool)
    (cn : Nat) :
    hasExit (add_ns_finish nm l al cn) = (hasExit l || (nm.isSome && !al)) := by
  cases nm <;> cases al <;> by_cases hcn : cn = 0 <;>
    simp [add_ns_finish, ns_manage_add, hasExit, Effect.isExit, hcn]

/-- With the namespace-data allocation succeeding, `add_ns` never exits. -/
theorem add_ns_no_exit_of_alloc (env : AddNsEnv)
    (hal : env.allocNdataOk = true) :
    hasExit (add_ns env) = false := by
  rcases env with ⟨octrlr, li, si, ci, dt, dl, nm, al, cn⟩
  cases hal
  rcases octrlr with _ | dd
  · rfl
  · unfold add_ns
    repeat' split
    all_goals
      first
      | (rw [hasExit_add_ns_finish]; simp [hasExit, Effect.isExit])
      | simp [hasExit, Effect.isExit]

/-- With the controller-list allocation succeeding, attach/detach never
exits. -/
theorem attach_and_detach_no_exit_of_alloc (op : AttachmentOp)
    (env : AttachDetachEnv) (hal : env.allocCtrlrListOk = true) :
    hasExit (attach_and_detach_ns op env) = false := by
  rcases env with ⟨octrlr, ga, al, rc⟩
  cases hal
  rcases octrlr with _ | dd
  · rfl
  · unfold attach_and_detach_ns
    rcases ga with ⟨ao, so, sc, ni⟩
    cases op <;> cases ao <;> cases so <;> (try cases ni) <;>
      simp only [get_allocated_nsid, identify_allocated_ns_cb, ns_attach,
                 Bool.not_true, Bool.not_false] <;>
      repeat' split <;>
      first
      | rfl
      | simp [hasExit, Effect.isExit]

/-- `delete_ns` never exits the process. -/
theorem delete_ns_no_exit (env : DeleteNsEnv) :
    hasExit (delete_ns env) = false := by
  rcases env with ⟨octrlr, ni, rc⟩
  rcases octrlr with _ | dd
  · rfl
  · unfold delete_ns ns_manage_delete
    repeat' split
    all_goals first | rfl | simp [hasExit, Effect.isExit]

/-- `format_confirm` introduces no process exit. -/
theorem format_confirm_hasExit (env : FormatEnv) (es : List Effect)
    (n s p pl m lb : Int) :
    hasExit (format_confirm env es n s p pl m lb) = hasExit es := by
  unfold format_confirm nvme_manage_format
  repeat' split
  all_goals simp [hasExit, Effect.isExit]

/-- `format_nvm_ns` introduces no process exit. -/
theorem format_nvm_ns_hasExit (env : FormatEnv) (n : Int)
    (od : Option NsData) (es : List Effect) :
    hasExit (format_nvm_ns env n od es) = hasExit es := by
  unfold format_nvm_ns
  repeat'
    first
    | split
    | dsimp only
  all_goals try rw [format_confirm_hasExit]
  all_goals simp [hasExit, Effect.isExit]

/-- `format_nvm` never exits the process. -/
theorem format_nvm_no_exit (env : FormatEnv) :
    hasExit (format_nvm env) = false := by
  unfold format_nvm
  repeat' split
  all_goals first
  | rfl
  | (rw [format_nvm_ns_hasExit]; rfl)

/-- `update_firmware_image` never exits the process. -/
theorem update_firmware_image_no_exit (env : FwEnv) :
    hasExit (update_firmware_image env) = false := by
  rcases env with ⟨octrlr, pin, oo, fs, sz, ao, ro, sl, rc⟩
  rcases octrlr with _ | dd
  · rfl
  · unfold update_firmware_image
    repeat' split
    all_goals first | rfl | simp [hasExit, Effect.isExit]

/-- A one-LBA-format namespace whose only format has no metadata. -/
def nsOneFmt : NsData := { nlbaf := 0, lbaf_ms := [0] }

/-- A valid create-namespace environment whose descriptor allocation
fails. -/
def envCreateAllocFail : AddNsEnv :=
  { ctrlr := some devZero, lbaf_in := some 0, size_in := some 100,
    capacity_in := some 100, dps_type_in := some 0, dps_loc_in := some 0,
    nmic_in := some 0, allocNdataOk := false, created_nsid := 0 }

/-- A fully successful attach/detach environment. -/
def envAttachOk : AttachDetachEnv :=
  { ctrlr := some devZero,
    ga := { allocOk := true, submitOk := true, cpl_sc := 0, nsid_in := some 1 },
    allocCtrlrListOk := true, driverRc := 0 }

/-- A fully successful delete environment. -/
def envDeleteOk : DeleteNsEnv :=
  { ctrlr := some devZero, nsid_in := some 1, driverRc := 0 }

/-- A fully successful per-namespace format environment whose chosen LBA
format has no metadata. -/
def envFormatMsZero : FormatEnv :=
  { ctrlr := some devZero, nsid_in := some 1, nsLookup := fun _ => some nsOneFmt,
    ses_in := some 0, lbaf_in := some 0, pi_in := some 0, pil_in := some 0,
    ms_in := some 0, confirm_in := some 'y', driverRc := 0 }

/-- A fully successful firmware-update environment with a 4096-byte image. -/
def envFwOk : FwEnv :=
  { ctrlr := some devZero, path_in := some "image.bin", openOk := true,
    fstatOk := true, size := 4096, allocOk := true, readOk := true,
    slot_in := some 0, driverRc := 0 }

/-- C6 counterexample: an allocation failure outside attach/detach is also
process-fatal — `add_ns` with every operator input valid but the
namespace-descriptor allocation failing reaches `ns_manage_add`, which
exits the process with status 1. -/
theorem C6_create_alloc_failure_exits_process :
    add_ns envCreateAllocFail
      = [.promptLbaf, .promptSize, .promptCapacity, .promptDpsType,
         .promptNmic, .report "Allocation error (namespace data)",
         .exitProcess 1]
    ∧ hasExit (add_ns envCreateAllocFail) = true
    ∧ Effect.exitProcess 1 ∈ add_ns envCreateAllocFail := by
  refine ⟨rfl, rfl, by decide⟩

/-- C6 amended: the process-fatal conditions of the operation layer are
exactly the two allocation failures — the controller-attachment list in
attach/detach (`ns_attach`) and the namespace-descriptor buffer in create
(`ns_manage_add`); delete, format and firmware update never exit the
process, and the attach/detach and create operations exit only when the
respective allocation fails.  (Driver initialization failure in `main` is
process-fatal as the claim states and is outside the operation layer.) -/
theorem C6_amended_fatal_allocation_sites (envA : AddNsEnv)
    (op : AttachmentOp) (envT : AttachDetachEnv) (envD : DeleteNsEnv)
    (envF : FormatEnv) (envW : FwEnv) :
    (hasExit (add_ns envA) = true → envA.allocNdataOk = false)
    ∧ (hasExit (attach_and_detach_ns op envT) = true
       → envT.allocCtrlrListOk = false)
    ∧ hasExit (delete_ns envD) = false
    ∧ hasExit (format_nvm envF) = false
    ∧ hasExit (update_firmware_image envW) = false := by
  refine ⟨?_, ?_, delete_ns_no_exit envD, format_nvm_no_exit envF,
          update_firmware_image_no_exit envW⟩
  · intro h
    by_contra hal
    rw [Bool.not_eq_false] at hal
    rw [add_ns_no_exit_of_alloc envA hal] at h
    simp at h
  · intro h
    by_contra hal
    rw [Bool.not_eq_false] at hal
    rw [attach_and_detach_no_exit_of_alloc op envT hal] at h
    simp at h

/-- Witness for the amended C6 theorem: the create operation with a failed
descriptor allocation does exit, and the fully successful environments of
the other operations do not. -/
theorem C6_amended_fatal_allocation_sites_witness :
    (hasExit (add_ns envCreateAllocFail) = true
       → envCreateAllocFail.allocNdataOk = false)
    ∧ (hasExit (attach_and_detach_ns .attach envAttachOk) = true
       → envAttachOk.allocCtrlrListOk = false)
    ∧ hasExit (delete_ns envDeleteOk) = false
    ∧ hasExit (format_nvm envFormatMsZero) = false
    ∧ hasExit (update_firmware_image envFwOk) = false :=
  C6_amended_fatal_allocation_sites envCreateAllocFail .attach envAttachOk
    envDeleteOk envFormatMsZero envFwOk

/-! ## Format and the allocated-namespace list (C5) -/

/-- `format_confirm` never emits the allocated-namespace-list identify. -/
theorem format_confirm_no_alloc_list (env : FormatEnv) (es : List Effect)
    (n s p pl m lb : Int)
    (h : Effect.identifyAllocatedNs ∉ es) :
    Effect.identifyAllocatedNs ∉ format_confirm env es n s p pl m lb := by
  unfold format_confirm nvme_manage_format
  repeat' split
  all_goals simp [h]

/-- `format_nvm_ns` never emits the allocated-namespace-list identify. -/
theorem format_nvm_ns_no_alloc_list (env : FormatEnv) (n : Int)
    (od : Option NsData) (es : List Effect)
    (h : Effect.identifyAllocatedNs ∉ es) :
    Effect.identifyAllocatedNs ∉ format_nvm_ns env n od es := by
  unfold format_nvm_ns
  repeat'
    first
    | split
    | dsimp only
  all_goals
    first
    | exact format_confirm_no_alloc_list env _ _ _ _ _ _ _ (by simp [h])
    | simp [h]

/-- `format_nvm` never emits the allocated-namespace-list identify. -/
theorem format_nvm_no_alloc_list (env : FormatEnv) :
    Effect.identifyAllocatedNs ∉ format_nvm env := by
  unfold format_nvm
  repeat' split
  all_goals
    first
    | exact format_nvm_ns_no_alloc_list env _ _ _ (by simp)
    | simp

/-- Every effect accumulated before `format_confirm` stays in its trace. -/
theorem format_confirm_prefix_mem (env : FormatEnv) (es : List Effect)
    (n s p pl m lb : Int) (x : Effect) (hx : x ∈ es) :
    x ∈ format_confirm env es n s p pl m lb := by
  unfold format_confirm nvme_manage_format
  repeat' split
  all_goals simp [hx]

/-- Every effect accumulated before `format_nvm_ns` stays in its trace. -/
theorem format_nvm_ns_prefix_mem (env : FormatEnv) (n : Int)
    (od : Option NsData) (es : List Effect) (x : Effect) (hx : x ∈ es) :
    x ∈ format_nvm_ns env n od es := by
  unfold format_nvm_ns
  repeat'
    first
    | split
    | dsimp only
  all_goals
    first
    | exact format_confirm_prefix_mem env _ _ _ _ _ _ _ x (by simp [hx])
    | simp [hx]

/-- C5 counterexample: on a controller without "format applies to all
namespaces", a complete, successful format run issues the format command
without ever submitting the allocated-namespace-list identify — the
operator is prompted for the namespace id directly. -/
theorem C5_format_issues_without_ns_list_retrieval :
    format_nvm envFormatMsZero
      = [.promptNsid, .promptSES, .promptLbaf, .promptConfirm,
         .formatCmd 1 0 0 0 0 0]
    ∧ (format_nvm envFormatMsZero).count Effect.identifyAllocatedNs = 0
    ∧ (format_nvm envFormatMsZero).count (Effect.formatCmd 1 0 0 0 0 0) = 1
    ∧ devZero.cdata.fna_format_all_ns = false := by
  refine ⟨rfl, by decide, by decide, rfl⟩

/-- C5 amended: the format operation never retrieves the allocated
namespace list; on a controller without "format applies to all
namespaces" it prompts the operator for the namespace id directly (a
format command in its trace is always accompanied by the namespace-id
prompt).  The allocated-namespace-list identify instead belongs to the
attach/detach operation, whose attach or detach command is always
preceded by that retrieval in the same trace. -/
theorem C5_amended_alloc_list_belongs_to_attach_detach (env : FormatEnv)
    (d : Dev) (hc : env.ctrlr = some d)
    (hfna : d.cdata.fna_format_all_ns = false) :
    Effect.identifyAllocatedNs ∉ format_nvm env
    ∧ (∀ n s p pl m lb, Effect.formatCmd n s p pl m lb ∈ format_nvm env
         → Effect.promptNsid ∈ format_nvm env)
    ∧ (∀ (op : AttachmentOp) (envT : AttachDetachEnv) (nsid cid : Nat),
         (Effect.attachNsCmd nsid cid ∈ attach_and_detach_ns op envT
          ∨ Effect.detachNsCmd nsid cid ∈ attach_and_detach_ns op envT)
         → Effect.identifyAllocatedNs ∈ attach_and_detach_ns op envT) := by
  refine ⟨format_nvm_no_alloc_list env, ?_, ?_⟩
  · intro n s p pl m lb hmem
    rcases env with ⟨octrlr, onsid, lk, oses, olb, opi, opil, oms, ocf, rc⟩
    cases hc
    unfold format_nvm at hmem ⊢
    by_cases hf : d.cdata.oacs_format
    · simp only [hf, Bool.not_true] at hmem ⊢
      simp only [hfna] at hmem ⊢
      rcases onsid with _ | ns_id
      · simp
      · exact format_nvm_ns_prefix_mem _ _ _ _ _ (by simp)
    · rw [Bool.not_eq_true] at hf
      simp [hf] at hmem
  · intro op envT nsid cid hmem
    rcases envT with ⟨octrlr, ga, al, rc⟩
    rcases octrlr with _ | dd
    · simp [attach_and_detach_ns] at hmem
    · rcases ga with ⟨ao, so, sc, ni⟩
      cases op <;> cases ao <;> cases so <;> (try cases ni) <;>
        simp_all [attach_and_detach_ns, get_allocated_nsid,
                  identify_allocated_ns_cb, ns_attach] <;>
        (repeat' split) <;> simp_all

/-- Witness for the amended C5 theorem at the concrete successful format
run and attach run. -/
theorem C5_amended_alloc_list_witness :
    Effect.identifyAllocatedNs ∉ format_nvm envFormatMsZero
    ∧ (∀ n s p pl m lb,
         Effect.formatCmd n s p pl m lb ∈ format_nvm envFormatMsZero
         → Effect.promptNsid ∈ format_nvm envFormatMsZero)
    ∧ (∀ (op : AttachmentOp) (envT : AttachDetachEnv) (nsid cid : Nat),
         (Effect.attachNsCmd nsid cid ∈ attach_and_detach_ns op envT
          ∨ Effect.detachNsCmd nsid cid ∈ attach_and_detach_ns op envT)
         → Effect.identifyAllocatedNs ∈ attach_and_detach_ns op envT) :=
  C5_amended_alloc_list_belongs_to_attach_detach envFormatMsZero devZero
    rfl rfl

/-! ## Metadata-free LBA formats (C8) -/

/-- In `format_nvm_ns`, a chosen LBA format with zero metadata bytes skips
the protection-information, protection-location and metadata prompts and
issues the format command with pi = pil = ms = 0. -/
theorem format_nvm_ns_ms_zero (env : FormatEnv) (n ses lbaf : Int)
    (nd : NsData) (es : List Effect)
    (hses : env.ses_in = some ses)
    (hlb : get_lba_format nd env.lbaf_in = lbaf)
    (hpos : 0 ≤ lbaf)
    (hms : nd.msAt lbaf.toNat = 0)
    (hcf : env.confirm_in = some 'y')
    (h1 : Effect.promptPI ∉ es) (h2 : Effect.promptPIL ∉ es)
    (h3 : Effect.promptMS ∉ es) :
    Effect.promptPI ∉ format_nvm_ns env n (some nd) es
    ∧ Effect.promptPIL ∉ format_nvm_ns env n (some nd) es
    ∧ Effect.promptMS ∉ format_nvm_ns env n (some nd) es
    ∧ Effect.formatCmd n ses 0 0 0 lbaf ∈ format_nvm_ns env n (some nd) es := by
  have hnot : ¬ (lbaf < 0) := not_lt.mpr hpos
  by_cases hrc : env.driverRc = 0 <;>
    simp [format_nvm_ns, format_confirm, nvme_manage_format, hses, hlb, hms,
          hcf, hrc, if_neg hnot, h1, h2, h3]

/-- C8: on every reachable format run whose chosen LBA format has zero
metadata bytes, the protection-information, protection-location and
metadata prompts are all skipped and the issued format command carries
pi = 0, pil = 0, ms = 0, whichever way the namespace id was selected. -/
theorem C8_ms_zero_skips_protection_prompts (env : FormatEnv) (d : Dev)
    (n ses lbaf : Int) (nd : NsData)
    (hc : env.ctrlr = some d)
    (hfmt : d.cdata.oacs_format = true)
    (hsel : (d.cdata.fna_format_all_ns = true ∧ env.nsLookup 1 = some nd
             ∧ n = SPDK_NVME_GLOBAL_NS_TAG)
          ∨ (d.cdata.fna_format_all_ns = false ∧ env.nsid_in = some n
             ∧ env.nsLookup n = some nd))
    (hses : env.ses_in = some ses)
    (hlb : get_lba_format nd env.lbaf_in = lbaf)
    (hpos : 0 ≤ lbaf)
    (hms : nd.msAt lbaf.toNat = 0)
    (hcf : env.confirm_in = some 'y') :
    Effect.promptPI ∉ format_nvm env
    ∧ Effect.promptPIL ∉ format_nvm env
    ∧ Effect.promptMS ∉ format_nvm env
    ∧ Effect.formatCmd n ses 0 0 0 lbaf ∈ format_nvm env := by
  rcases hsel with ⟨hfna, hlk, hn⟩ | ⟨hfna, hni, hlk⟩
  · subst hn
    have hred : format_nvm env
        = format_nvm_ns env SPDK_NVME_GLOBAL_NS_TAG (env.nsLookup 1) [] := by
      simp [format_nvm, hc, hfmt, hfna]
    rw [hred, hlk]
    exact format_nvm_ns_ms_zero env _ ses lbaf nd [] hses hlb hpos hms hcf
      (by simp) (by simp) (by simp)
  · have hred : format_nvm env
        = format_nvm_ns env n (env.nsLookup n) [.promptNsid] := by
      simp [format_nvm, hc, hfmt, hfna, hni]
    rw [hred, hlk]
    exact format_nvm_ns_ms_zero env n ses lbaf nd [.promptNsid] hses hlb hpos
      hms hcf (by simp) (by simp) (by simp)

/-- Witness for C8 at the concrete metadata-free format run. -/
theorem C8_ms_zero_witness :
    Effect.promptPI ∉ format_nvm envFormatMsZero
    ∧ Effect.promptPIL ∉ format_nvm envFormatMsZero
    ∧ Effect.promptMS ∉ format_nvm envFormatMsZero
    ∧ Effect.formatCmd 1 0 0 0 0 0 ∈ format_nvm envFormatMsZero :=
  C8_ms_zero_skips_protection_prompts envFormatMsZero devZero 1 0 0 nsOneFmt
    rfl rfl (Or.inr ⟨rfl, rfl, rfl⟩) rfl (by decide) (by decide) (by decide)
    rfl

/-! ## Firmware image alignment (C9) -/

/-- C9: once the controller is selected, the firmware capability present
and the image file opened and stat-ed, an image whose size is not a
multiple of 4 is rejected with only a report — no admin command of any
kind is issued — while a 4-aligned image (with the read and allocation
succeeding) proceeds to the slot prompt and the firmware-update command. -/
theorem C9_firmware_alignment_gate (env : FwEnv) (d : Dev) (p : String)
    (hc : env.ctrlr = some d)
    (hfw : d.cdata.oacs_firmware = true)
    (hp : env.path_in = some p)
    (ho : env.openOk = true)
    (hs : env.fstatOk = true) :
    (env.size % 4 ≠ 0 →
       update_firmware_image env
         = [.promptPath, .report "Firmware image size is not multiple of 4"]
       ∧ adminFree (update_firmware_image env) = true)
    ∧ (env.size % 4 = 0 → env.allocOk = true → env.readOk = true →
       ∀ slot, env.slot_in = some slot →
         Effect.promptSlot ∈ update_firmware_image env
         ∧ Effect.fwUpdateCmd slot ∈ update_firmware_image env) := by
  rcases env with ⟨octrlr, pin, oo, fs, sz, ao, ro, sl, rc⟩
  subst hc
  subst hp
  subst ho
  subst hs
  constructor
  · intro hsz
    refine ⟨?_, ?_⟩
    · simp [update_firmware_image, hfw, hsz]
    · simp [update_firmware_image, hfw, hsz, adminFree, Effect.isAdminCmd]
  · intro hsz hao hro slot hsl
    subst hao
    subst hro
    subst hsl
    constructor <;>
      by_cases hrc : rc = 0 <;>
        simp [update_firmware_image, hfw, hsz, hrc]

/-- Witness for C9: the 4097-byte image is rejected before any command,
the 4096-byte image reaches the slot prompt and the update command. -/
theorem C9_firmware_alignment_gate_witness :
    (((envFwOk.size % 4 ≠ 0 →
        update_firmware_image envFwOk
          = [.promptPath, .report "Firmware image size is not multiple of 4"]
        ∧ adminFree (update_firmware_image envFwOk) = true)
      ∧ (envFwOk.size % 4 = 0 → envFwOk.allocOk = true
         → envFwOk.readOk = true →
         ∀ slot, envFwOk.slot_in = some slot →
           Effect.promptSlot ∈ update_firmware_image envFwOk
           ∧ Effect.fwUpdateCmd slot ∈ update_firmware_image envFwOk)))
    ∧ ((({ envFwOk with size := 4097 } : FwEnv).size % 4 ≠ 0 →
        update_firmware_image { envFwOk with size := 4097 }
          = [.promptPath, .report "Firmware image size is not multiple of 4"]
        ∧ adminFree (update_firmware_image { envFwOk with size := 4097 })
          = true)
      ∧ (({ envFwOk with size := 4097 } : FwEnv).size % 4 = 0
         → ({ envFwOk with size := 4097 } : FwEnv).allocOk = true
         → ({ envFwOk with size := 4097 } : FwEnv).readOk = true →
         ∀ slot, ({ envFwOk with size := 4097 } : FwEnv).slot_in = some slot →
           Effect.promptSlot ∈ update_firmware_image { envFwOk with size := 4097 }
           ∧ Effect.fwUpdateCmd slot
             ∈ update_firmware_image { envFwOk with size := 4097 })) :=
  ⟨C9_firmware_alignment_gate envFwOk devZero "image.bin" rfl rfl rfl rfl rfl,
   C9_firmware_alignment_gate { envFwOk with size := 4097 } devZero "image.bin"
     rfl rfl rfl rfl rfl⟩

/-! ## Capability gating (C10) -/

/-- C10: with the relevant capability bit clear, every operation is
refused immediately after controller lookup with only a report — create,
delete, attach and detach on a cleared namespace-management bit, format on
a cleared format bit, firmware update on a cleared firmware bit — and the
refusal traces contain no admin command and no process exit. -/
theorem C10_capability_gates (a : PciAddr) (cid nn : Nat) (b1 b2 b3 b4 : Bool)
    (c : Option NsData) (oc : Int) (op : AttachmentOp)
    (li si ci dt dl nm : Option Int) (al : Bool) (cn : Nat)
    (ni : Option Int) (rc : Int)
    (ga : GetAllocEnv) (alc : Bool) (rc2 : Int)
    (nsidI ses lb piI pilI msI : Option Int) (lk : Int → Option NsData)
    (cf : Option Char) (rc3 : Int)
    (pin : Option String) (oo fs : Bool) (sz : Nat) (ao ro : Bool)
    (sl : Option Int) (rc4 : Int) :
    add_ns { ctrlr := some ⟨a, ⟨cid, nn, false, b1, b2, b3, b4⟩, c, oc⟩,
             lbaf_in := li, size_in := si, capacity_in := ci,
             dps_type_in := dt, dps_loc_in := dl, nmic_in := nm,
             allocNdataOk := al, created_nsid := cn }
      = [.report "Controller does not support ns management"]
    ∧ delete_ns { ctrlr := some ⟨a, ⟨cid, nn, false, b1, b2, b3, b4⟩, c, oc⟩,
                  nsid_in := ni, driverRc := rc }
      = [.report "Controller does not support ns management"]
    ∧ attach_and_detach_ns op
        { ctrlr := some ⟨a, ⟨cid, nn, false, b1, b2, b3, b4⟩, c, oc⟩,
          ga := ga, allocCtrlrListOk := alc, driverRc := rc2 }
      = [.report "Controller does not support ns management"]
    ∧ format_nvm { ctrlr := some ⟨a, ⟨cid, nn, b1, false, b2, b3, b4⟩, c, oc⟩,
                   nsid_in := nsidI, nsLookup := lk, ses_in := ses,
                   lbaf_in := lb, pi_in := piI, pil_in := pilI, ms_in := msI,
                   confirm_in := cf, driverRc := rc3 }
      = [.report "Controller does not support Format NVM command"]
    ∧ update_firmware_image
        { ctrlr := some ⟨a, ⟨cid, nn, b1, b2, false, b3, b4⟩, c, oc⟩,
          path_in := pin, openOk := oo, fstatOk := fs, size := sz,
          allocOk := ao, readOk := ro, slot_in := sl, driverRc := rc4 }
      = [.report "Controller does not support firmware download and commit command"]
    ∧ adminFree [.report "Controller does not support ns management"] = true
    ∧ adminFree [.report "Controller does not support Format NVM command"] = true
    ∧ adminFree
        [.report "Controller does not support firmware download and commit command"]
      = true
    ∧ hasExit [.report "Controller does not support ns management"] = false
    ∧ hasExit [.report "Controller does not support Format NVM command"] = false
    ∧ hasExit
        [.report "Controller does not support firmware download and commit command"]
      = false :=
  ⟨rfl, rfl, rfl, rfl, rfl, rfl, rfl, rfl, rfl, rfl, rfl⟩
